import Mathlib

/-!
Verification development for the OmicsCodex harvesting scripts.

The four Python source files are shallowly embedded:
* `src/scraper/scraper.py` (Selenium variant) — namespace `Scraper`;
* `src/wikicrow/scraper_pyppeteer.py` (Pyppeteer variant) — namespace `Pyp`;
* `src/mygene_info/download_genes.py` — namespace `MyGene`;
* `src/biogrid/biogrid_scraper.py` — namespace `Biogrid`.

Rendered page markup is modelled as a tree of nodes (`Node`), and the
BeautifulSoup operations the scripts use (`find`, `find_all`, `find_parent`,
`find_next_sibling`, `.text`) are defined over that tree.  Python exceptions
(notably `AttributeError` from calling a method on `None`) are modelled with
`Except String`; mutation of the `data` dict inside `extract_data` is modelled
with a state monad over an association list.
-/

/-- An HTML node: an element with a tag, attributes and children, or a bare
text node.  This is the parse-tree shape that BeautifulSoup's `html.parser`
produces for the markup the scrapers consume. -/
inductive Node where
  | elem (tag : String) (attrs : List (String × String)) (children : List Node)
  | text (s : String)

/-- A parsed document: the top-level nodes, in order. -/
abbrev Doc := List Node

/-- All descendants of the nodes of a list, in document (preorder) order,
including the listed nodes themselves. -/
def descendantsL : List Node → List Node
  | [] => []
  | Node.elem t a cs :: rest =>
      Node.elem t a cs :: (descendantsL cs ++ descendantsL rest)
  | Node.text s :: rest => Node.text s :: descendantsL rest
termination_by l => sizeOf l
decreasing_by all_goals (simp_wf; try omega)

/-- Concatenated text of a list of nodes, in document order (the `.text`
property of BeautifulSoup). -/
def nodeTextL : List Node → String
  | [] => ""
  | Node.elem _ _ cs :: rest => nodeTextL cs ++ nodeTextL rest
  | Node.text s :: rest => s ++ nodeTextL rest
termination_by l => sizeOf l
decreasing_by all_goals (simp_wf; try omega)

/-- The `.text` property of a single node. -/
def nodeText (n : Node) : String := nodeTextL [n]

/-- Does a node carry the given tag? (text nodes match no tag). -/
def Node.tagIs : Node → String → Bool
  | .elem t _ _, tag => t = tag
  | .text _, _ => false

/-- Does an element node carry the attribute `k` with value `v`?
Models BeautifulSoup's `find(tag, attrs=...)` attribute matching. -/
def Node.hasAttr : Node → String → String → Bool
  | .elem _ attrs _, k, v => attrs.any (fun kv => kv.1 = k && kv.2 = v)
  | .text _, _, _ => false

/-- Does the node's `.string` equal `s`?  BeautifulSoup's `string=` argument
matches a tag whose sole child is that navigable string. -/
def Node.stringIs : Node → String → Bool
  | .elem _ _ [Node.text t], s => t = s
  | _, _ => false

/-- Direct children of a node. -/
def Node.childrenOf : Node → List Node
  | .elem _ _ cs => cs
  | .text _ => []

/-- Strict descendants of a node, in document order (what `find_all` on a tag
traverses; the tag itself is excluded). -/
def Node.descendants (n : Node) : List Node := descendantsL n.childrenOf

/-- `tag.find_all(pred)`: every strict descendant satisfying the predicate. -/
def Node.findAll (n : Node) (p : Node → Bool) : List Node :=
  n.descendants.filter p

/-- `tag.find(pred)`: the first strict descendant satisfying the predicate. -/
def Node.find (n : Node) (p : Node → Bool) : Option Node :=
  n.descendants.find? p

/-- One step of ancestry context for a located node: the enclosing element's
tag and attributes, the earlier siblings (reversed) and the later siblings. -/
structure Frame where
  tag : String
  attrs : List (String × String)
  before : List Node
  after : List Node

/-- A node located inside a document, together with its ancestor chain
(innermost frame first).  The document itself is represented by a synthetic
outermost frame with tag `[document]`, mirroring BeautifulSoup's root. -/
structure Loc where
  node : Node
  path : List Frame

/-- Every location under the element described by `(t, a)` whose children are
`before.reverse ++ after`, in document (preorder) order. -/
def locsUnder (t : String) (a : List (String × String)) (fs : List Frame)
    (before : List Node) : List Node → List Loc
  | [] => []
  | c :: after =>
      let fr : Frame := ⟨t, a, before, after⟩
      let here : Loc := ⟨c, fr :: fs⟩
      let inside : List Loc :=
        match c with
        | .elem ct ca cc => locsUnder ct ca (fr :: fs) [] cc
        | .text _ => []
      here :: (inside ++ locsUnder t a fs (c :: before) after)
termination_by l => sizeOf l
decreasing_by all_goals (simp_wf; try omega)

/-- Every location of a document, in document order. -/
def docLocs (d : Doc) : List Loc := locsUnder "[document]" [] [] [] d

/-- `soup.find(pred)`: first node of the document satisfying the predicate,
with its ancestry context. -/
def soupFind (d : Doc) (p : Node → Bool) : Option Loc :=
  (docLocs d).find? (fun l => p l.node)

/-- Rebuild the parent element of a located node as a located node itself. -/
def Loc.parent : Loc → Option Loc
  | ⟨_, []⟩ => none
  | ⟨n, f :: fs⟩ => some ⟨.elem f.tag f.attrs (f.before.reverse ++ n :: f.after), fs⟩

/-- `tag.find_parent(tag_name)`: nearest enclosing element with the given tag
(the synthetic `[document]` root matches no tag name). -/
def Loc.findParent : Loc → String → Option Loc
  | ⟨_, []⟩, _ => none
  | ⟨n, f :: fs⟩, tag =>
      let p : Loc := ⟨.elem f.tag f.attrs (f.before.reverse ++ n :: f.after), fs⟩
      if f.tag = tag then some p else p.findParent tag
termination_by l _ => l.path.length
decreasing_by simp_wf

/-- `tag.find_next_sibling(tag_name)`: first later sibling with the tag. -/
def Loc.findNextSibling (l : Loc) (tag : String) : Option Node :=
  match l.path with
  | [] => none
  | f :: _ => f.after.find? (fun n => n.tagIs tag)

/-- A JSON-serialisable value stored in the extracted record: a string, a list
of strings, or a flat string-keyed dictionary (used for `gene_position`). -/
inductive Value where
  | str (s : String)
  | strList (l : List String)
  | dict (kvs : List (String × String))

/-- The extracted record, modelling the Python `data` dict: an association
list from field name to value, in insertion order. -/
abbrev Record := List (String × Value)

/-- Python dict assignment `r[k] = v`: update in place when the key exists
(record keys are unique by construction), else append at the end. -/
def recordSet : Record → String → Value → Record
  | [], k, v => [(k, v)]
  | kv :: rest, k, v =>
      if kv.1 = k then (k, v) :: rest else kv :: recordSet rest k v

/-- Result of an extraction step: the updated `data` dict, or a raised Python
exception (e.g. `AttributeError` from calling a method on `None`) together
with the `data` dict as it stood when the exception was raised. -/
abbrev ExRes := Except (String × Record) Record

/-- Sequencing of extraction steps: an exception skips the rest. -/
def bindR (x : ExRes) (f : Record → ExRes) : ExRes :=
  match x with
  | Except.error e => Except.error e
  | Except.ok r => f r

/-- Python truthiness of the fetched markup (`if not html_content`): absent
content and the empty string are falsy. -/
def contentTruthy : Option Doc → Bool
  | none => false
  | some d => !d.isEmpty

/-- Warning message declared by the source for a `div` with
`data-status="warning"`. -/
def msgResearch : String := "Insufficient published research for high-quality article"

/-- Warning message declared by the source for an `h2` reading `Warning`. -/
def msgSources : String := "Insufficient scholarly sources found"

/-- `soup.find('div', attrs={'data-status': 'warning'})`. -/
def findWarningDiv (d : Doc) : Option Loc :=
  soupFind d (fun n => n.tagIs "div" && n.hasAttr "data-status" "warning")

/-- `soup.find('h2', string=s)`. -/
def findH2 (d : Doc) (s : String) : Option Loc :=
  soupFind d (fun n => n.tagIs "h2" && n.stringIs s)

/-- Tag predicate shorthand used by the extraction bodies. -/
def isTag (tag : String) : Node → Bool := fun n => n.tagIs tag

/-- A placeholder node for guarded positional indexing (`l[i]` in Python is
only reached under a length guard, so the default is never used). -/
def dummyNode : Node := Node.text ""

/-- `[div.find('p').text for div in btns]` in the Selenium variant: a missing
`p` raises `AttributeError` mid-comprehension. -/
def pTextsRaising (btns : List Node) (data : Record) :
    Except (String × Record) (List String) :=
  match btns with
  | [] => Except.ok []
  | b :: rest =>
      match b.find (isTag "p") with
      | none => Except.error ("AttributeError", data)
      | some p => (pTextsRaising rest data).map (fun ts => nodeText p :: ts)

/-- `Overview`/`Structure`/... narrative section extraction, identical in
`scraper.py` (lines 144-152) and `scraper_pyppeteer.py` (lines 152-160): the
single `find_parent('div')` call is guarded, so this step cannot raise. -/
def extractSection (d : Doc) (section_id : String) (data : Record) : Record :=
  match findH2 d section_id with
  | none => data
  | some section_header =>
      match section_header.findParent "div" with
      | none => data
      | some section_div =>
          let text_content := String.intercalate " "
            ((section_div.node.findAll (isTag "p")).map nodeText)
          recordSet data section_id.toLower (Value.str text_content.trim)

/-- The five narrative sections walked by both variants, in source order. -/
def extractSections (d : Doc) (data : Record) : Record :=
  extractSection d "Clinical Significance"
    (extractSection d "Interactions"
      (extractSection d "Functions"
        (extractSection d "Structure"
          (extractSection d "Overview" data))))

/-- `Gene Position (hg19)` extraction, identical in both variants
(`scraper.py` lines 120-134, `scraper_pyppeteer.py` lines 127-141): the
chained `position_header.find_parent('div').find_next_sibling('table')`
raises when the first `find_parent` returns `None`. -/
def extractPosition (d : Doc) (data : Record) : ExRes :=
  match findH2 d "Gene Position (hg19)" with
  | none => Except.ok data
  | some position_header =>
      match position_header.findParent "div" with
      | none => Except.error ("AttributeError", data)
      | some pdiv =>
          match pdiv.findNextSibling "table" with
          | none => Except.ok data
          | some table =>
              let rows := table.findAll (isTag "tr")
              if rows.length > 1 then
                let cells := (rows.getD 1 dummyNode).findAll (isTag "td")
                if cells.length = 4 then
                  Except.ok (recordSet data "gene_position" (Value.dict
                    [("chr", (nodeText (cells.getD 0 dummyNode)).trim),
                     ("end", (nodeText (cells.getD 1 dummyNode)).trim),
                     ("start", (nodeText (cells.getD 2 dummyNode)).trim),
                     ("strand", (nodeText (cells.getD 3 dummyNode)).trim)]))
                else Except.ok data
              else Except.ok data

namespace Scraper

/-- `validate_html` of `src/scraper/scraper.py` (lines 66-87): empty content
is invalid with no message; a warning `div` or warning `h2` is valid with the
declared warning message; an `Info` header is valid with no message; anything
else is invalid with "Missing gene info". -/
def validate_html (html_content : Option Doc) : Bool × Option String :=
  match html_content with
  | none => (false, none)
  | some d =>
    if d.isEmpty then (false, none)
    else if (findWarningDiv d).isSome then (true, some msgResearch)
    else if (findH2 d "Warning").isSome then (true, some msgSources)
    else if (findH2 d "Info").isSome then (true, none)
    else (false, some "Missing gene info")

/-- `Info` extraction of `scraper.py` (lines 109-118).  The chained
`info_header.find_parent('div').find_parent('div')` raises when the first
`find_parent` is `None`, and each `info_list_items[i].find('p').text` raises
when the `p` is missing. -/
def extractInfo (d : Doc) (data : Record) : ExRes :=
  match findH2 d "Info" with
  | none => Except.ok data
  | some info_header =>
      match info_header.findParent "div" with
      | none => Except.error ("AttributeError", data)
      | some fp =>
          match fp.findParent "div" with
          | none => Except.ok data
          | some info_section =>
              let info_list_items := info_section.node.findAll (isTag "li")
              if info_list_items.length ≥ 3 then
                match (info_list_items.getD 0 dummyNode).find (isTag "p") with
                | none => Except.error ("AttributeError", data)
                | some p0 =>
                    let data := recordSet data "gene_names"
                      (Value.str (((nodeText p0).replace "gene names: " "").trim))
                    match (info_list_items.getD 1 dummyNode).find (isTag "p") with
                    | none => Except.error ("AttributeError", data)
                    | some p1 =>
                        let data := recordSet data "gene_alias"
                          (Value.str (((nodeText p1).replace "gene alias: " "").trim))
                        match (info_list_items.getD 2 dummyNode).find (isTag "p") with
                        | none => Except.error ("AttributeError", data)
                        | some p2 =>
                            Except.ok (recordSet data "gene_type"
                              (Value.str (((nodeText p2).replace "type: " "").trim)))
              else Except.ok data

/-- `Related Genes` extraction of `scraper.py` (lines 136-142): one raising
`find_parent('div')`, then a guarded sibling, then a list comprehension whose
`div.find('p').text` raises on a missing `p`. -/
def extractRelated (d : Doc) (data : Record) : ExRes :=
  match findH2 d "Related Genes" with
  | none => Except.ok data
  | some related_genes_header =>
      match related_genes_header.findParent "div" with
      | none => Except.error ("AttributeError", data)
      | some rdiv =>
          match rdiv.findNextSibling "div" with
          | none => Except.ok data
          | some related_genes_div =>
              let btns := related_genes_div.findAll
                (fun n => n.tagIs "div" && n.hasAttr "role" "button")
              match pTextsRaising btns data with
              | Except.error e => Except.error e
              | Except.ok related_genes =>
                  Except.ok (recordSet data "related_genes"
                    (Value.strList related_genes))

/-- `References` extraction of `scraper.py` (lines 154-163): the single
`find_parent('div')` is guarded, but `li.find('p').text` raises on a missing
`p`. -/
def extractReferences (d : Doc) (data : Record) : ExRes :=
  match findH2 d "References" with
  | none => Except.ok data
  | some references_header =>
      match references_header.findParent "div" with
      | none => Except.ok data
      | some references_section =>
          let lis := references_section.node.findAll (isTag "li")
          match pTextsRaising lis data with
          | Except.error e => Except.error e
          | Except.ok texts =>
              Except.ok (recordSet data "references"
                (Value.strList (texts.map String.trim)))

/-- Body of `extract_data` of `scraper.py` (lines 95-165), run on truthy
content: the warning checks return early; otherwise the five section walks
run in source order, threading the `data` dict. -/
def extractBody (d : Doc) (gene_name : String) : ExRes :=
  let data : Record := [("gene_name", Value.str gene_name)]
  if (findWarningDiv d).isSome then
    Except.ok (recordSet data "error" (Value.str msgResearch))
  else if (findH2 d "Warning").isSome then
    Except.ok (recordSet data "error" (Value.str msgSources))
  else
    bindR (extractInfo d data) (fun data =>
    bindR (extractPosition d data) (fun data =>
    bindR (extractRelated d data) (fun data =>
    extractReferences d (extractSections d data))))

/-- `extract_data` of `src/scraper/scraper.py` (lines 90-165).  Returns the
Python pair `(data, error)`; an uncaught exception from the body surfaces as
`Except.error` because this variant has no try/except. -/
def extract_data (html_content : Option Doc) (gene_name : String) :
    Except String (Option Record × Option String) :=
  if !contentTruthy html_content then
    Except.ok (none, some "HTML could not be fetched")
  else
    match html_content with
    | none => Except.ok (none, some "HTML could not be fetched")
    | some d =>
        match extractBody d gene_name with
        | Except.ok data => Except.ok (some data, none)
        | Except.error (e, _) => Except.error e

end Scraper

namespace Pyp

/-- `validate_html` of `src/wikicrow/scraper_pyppeteer.py` (lines 67-87):
empty content is invalid with no message; a warning `div` or warning `h2` is
valid with the declared warning message; **any other content is valid with no
message** — this variant has no `Info` check.  (Its try/except only guards
BeautifulSoup calls, which cannot raise in this model.) -/
def validate_html (html_content : Option Doc) : Bool × Option String :=
  match html_content with
  | none => (false, none)
  | some d =>
    if d.isEmpty then (false, none)
    else if (findWarningDiv d).isSome then (true, some msgResearch)
    else if (findH2 d "Warning").isSome then (true, some msgSources)
    else (true, none)

/-- `Info` extraction of `scraper_pyppeteer.py` (lines 112-125): the chained
`find_parent('div').find_parent('div')` still raises on a missing first
parent, but each `find('p')` is guarded, so missing paragraphs skip the
field instead of raising. -/
def extractInfo (d : Doc) (data : Record) : ExRes :=
  match findH2 d "Info" with
  | none => Except.ok data
  | some info_header =>
      match info_header.findParent "div" with
      | none => Except.error ("AttributeError", data)
      | some fp =>
          match fp.findParent "div" with
          | none => Except.ok data
          | some info_section =>
              let info_list_items := info_section.node.findAll (isTag "li")
              if info_list_items.length ≥ 3 then
                let data :=
                  match (info_list_items.getD 0 dummyNode).find (isTag "p") with
                  | none => data
                  | some p0 => recordSet data "gene_names"
                      (Value.str (((nodeText p0).replace "gene names: " "").trim))
                let data :=
                  match (info_list_items.getD 1 dummyNode).find (isTag "p") with
                  | none => data
                  | some p1 => recordSet data "gene_alias"
                      (Value.str (((nodeText p1).replace "gene alias: " "").trim))
                let data :=
                  match (info_list_items.getD 2 dummyNode).find (isTag "p") with
                  | none => data
                  | some p2 => recordSet data "gene_type"
                      (Value.str (((nodeText p2).replace "type: " "").trim))
                Except.ok data
              else Except.ok data

/-- `Related Genes` extraction of `scraper_pyppeteer.py` (lines 143-150):
`find_parent('div').find_parent('div').find_next_sibling('div')` raises when
either `find_parent` is `None`; the comprehension filters on `div.find('p')`
so it cannot raise. -/
def extractRelated (d : Doc) (data : Record) : ExRes :=
  match findH2 d "Related Genes" with
  | none => Except.ok data
  | some related_genes_header =>
      match related_genes_header.findParent "div" with
      | none => Except.error ("AttributeError", data)
      | some r1 =>
          match r1.findParent "div" with
          | none => Except.error ("AttributeError", data)
          | some r2 =>
              match r2.findNextSibling "div" with
              | none => Except.ok data
              | some related_genes_div =>
                  let btns := related_genes_div.findAll
                    (fun n => n.tagIs "div" && n.hasAttr "role" "button")
                  let related_genes := btns.filterMap
                    (fun b => (b.find (isTag "p")).map nodeText)
                  Except.ok (recordSet data "related_genes"
                    (Value.strList related_genes))

/-- `References` extraction of `scraper_pyppeteer.py` (lines 162-172): fully
guarded (`if li.find('p')`), so it cannot raise. -/
def extractReferences (d : Doc) (data : Record) : Record :=
  match findH2 d "References" with
  | none => data
  | some references_header =>
      match references_header.findParent "div" with
      | none => data
      | some references_section =>
          let lis := references_section.node.findAll (isTag "li")
          let references := lis.filterMap
            (fun li => (li.find (isTag "p")).map (fun p => (nodeText p).trim))
          recordSet data "references" (Value.strList references)

/-- Body of the try-block of `extract_data` of `scraper_pyppeteer.py`
(lines 98-174): warning checks return early, then the section walks run in
source order. -/
def extractBody (d : Doc) (gene_name : String) : ExRes :=
  let data : Record := [("gene_name", Value.str gene_name)]
  if (findWarningDiv d).isSome then
    Except.ok (recordSet data "error" (Value.str msgResearch))
  else if (findH2 d "Warning").isSome then
    Except.ok (recordSet data "error" (Value.str msgSources))
  else
    bindR (extractInfo d data) (fun data =>
    bindR (extractPosition d data) (fun data =>
    bindR (extractRelated d data) (fun data =>
    Except.ok (extractReferences d (extractSections d data)))))

/-- `extract_data` of `src/wikicrow/scraper_pyppeteer.py` (lines 91-178).
The body runs inside `try/except Exception`: a raised fault is caught, the
partial `data` dict gets an `error` field, and `(data, error)` is returned —
this variant never propagates an exception, hence never `Except.error`. -/
def extract_data (html_content : Option Doc) (gene_name : String) :
    Except String (Option Record × Option String) :=
  if !contentTruthy html_content then
    Except.ok (none, some "HTML could not be fetched")
  else
    match html_content with
    | none => Except.ok (none, some "HTML could not be fetched")
    | some d =>
        match extractBody d gene_name with
        | Except.ok data => Except.ok (some data, none)
        | Except.error (e, data) =>
            let msg := "Extraction error: " ++ e
            Except.ok (some (recordSet data "error" (Value.str msg)), some msg)

end Pyp

/-- The per-identifier slice of the filesystem the pipeline touches: the
identifier's JSON artifact and its raw HTML snapshot. -/
structure FS where
  json : Option Record
  html : Option Doc

namespace Scraper

/-- The tail of `process_gene` of `scraper.py` (lines 196-219), reached when
no usable cache was found: the (already completed) fetch result is saved when
truthy, validated, and extracted; the second component counts fetch_html
calls on this path (always 1). -/
def afterFetch (gene_name : String) (html_content : Option Doc) (fs : FS) :
    Except String (FS × Nat) :=
  let fs1 := if contentTruthy html_content then { fs with html := html_content } else fs
  if contentTruthy html_content && !(validate_html html_content).1 then
    Except.ok (fs1, 1)
  else
    match extract_data html_content gene_name with
    | Except.error e => Except.error e
    | Except.ok (extracted_data, error) =>
        let extracted_data :=
          match error, extracted_data with
          | some e, some dta => some (recordSet dta "error" (Value.str e))
          | some e, none => some [("gene_name", Value.str gene_name),
                                  ("error", Value.str e)]
          | none, dta => dta
        match extracted_data with
        | some dta => Except.ok ({ fs1 with json := some dta }, 1)
        | none => Except.ok (fs1, 1)

/-- `process_gene` of `src/scraper/scraper.py` (lines 168-219), as a function
of the fetch result this run would obtain.  Returns the updated filesystem
slice and the number of `fetch_html` calls performed; an uncaught exception
(this variant has no try/except) is `Except.error`. -/
def process_gene (gene_name : String) (fetched : Option Doc) (fs : FS) :
    Except String (FS × Nat) :=
  if fs.json.isSome then Except.ok (fs, 0)
  else
    match fs.html with
    | some cached =>
        if (validate_html (some cached)).1 then
          match extract_data (some cached) gene_name with
          | Except.error e => Except.error e
          | Except.ok (extracted_data, _) =>
              match extracted_data with
              | some dta => Except.ok ({ fs with json := some dta }, 0)
              | none => Except.ok (fs, 0)
        else afterFetch gene_name fetched fs
    | none => afterFetch gene_name fetched fs

end Scraper

namespace Pyp

/-- The tail of `process_gene` of `scraper_pyppeteer.py` (lines 214-244),
mirroring `Scraper.afterFetch` with this variant's validator and extractor. -/
def afterFetch (gene_name : String) (html_content : Option Doc) (fs : FS) :
    Except String (FS × Nat) :=
  let fs1 := if contentTruthy html_content then { fs with html := html_content } else fs
  if contentTruthy html_content && !(validate_html html_content).1 then
    Except.ok (fs1, 1)
  else
    match extract_data html_content gene_name with
    | Except.error e => Except.error e
    | Except.ok (extracted_data, error) =>
        let extracted_data :=
          match error, extracted_data with
          | some e, some dta => some (recordSet dta "error" (Value.str e))
          | some e, none => some [("gene_name", Value.str gene_name),
                                  ("error", Value.str e)]
          | none, dta => dta
        match extracted_data with
        | some dta => Except.ok ({ fs1 with json := some dta }, 1)
        | none => Except.ok (fs1, 1)

/-- `process_gene` of `src/wikicrow/scraper_pyppeteer.py` (lines 182-246).
The whole body sits in a `try/except Exception`; in this model none of the
modelled steps can raise (`Pyp.extract_data` catches internally and file I/O
is infallible), so the result is still reported through `Except` and proved
never to be an error. -/
def process_gene (gene_name : String) (fetched : Option Doc) (fs : FS) :
    Except String (FS × Nat) :=
  if fs.json.isSome then Except.ok (fs, 0)
  else
    match fs.html with
    | some cached =>
        if (validate_html (some cached)).1 then
          match extract_data (some cached) gene_name with
          | Except.error e => Except.error e
          | Except.ok (extracted_data, _) =>
              match extracted_data with
              | some dta => Except.ok ({ fs with json := some dta }, 0)
              | none => Except.ok (fs, 0)
        else afterFetch gene_name fetched fs
    | none => afterFetch gene_name fetched fs

end Pyp

namespace Scraper

/-- Environment of one `fetch_html` run of `scraper.py`: what the page load
(`_get_page_html`, lines 58-63) yields on attempt `k` (`none` models a raised
exception — `WebDriverException` and generic failures behave identically),
and whether `driver.quit()` succeeds on attempt `k`. -/
structure Oracle where
  body : Nat → Option Doc
  quitOk : Nat → Bool

/-- Observable trace of one `fetch_html` run: the returned value (or the
exception it lets escape), the number of attempts (each attempt creates one
driver session), the number of `driver.quit()` invocations, and the backoff
delays slept, in order. -/
structure FetchTrace where
  result : Except String (Option Doc)
  calls : Nat
  teardowns : Nat
  delays : List Nat

/-- The retry loop of `fetch_html` of `scraper.py` (lines 36-55), from
attempt `k`.  `driver.quit()` sits in a bare `finally`: if it raises, the
exception replaces whatever the iteration was about to return and aborts the
loop.  On a failed non-final attempt the loop sleeps `2 ** attempt` seconds
(uncapped); a failed final attempt returns `None`. -/
def fetch_htmlAux (o : Oracle) (max_retries k : Nat) : FetchTrace :=
  if k < max_retries then
    match o.body k with
    | some html =>
        if o.quitOk k then ⟨Except.ok (some html), 1, 1, []⟩
        else ⟨Except.error "quit raised", 1, 1, []⟩
    | none =>
        if k = max_retries - 1 then
          if o.quitOk k then ⟨Except.ok none, 1, 1, []⟩
          else ⟨Except.error "quit raised", 1, 1, []⟩
        else
          if o.quitOk k then
            let t := fetch_htmlAux o max_retries (k + 1)
            ⟨t.result, t.calls + 1, t.teardowns + 1, 2 ^ k :: t.delays⟩
          else ⟨Except.error "quit raised", 1, 1, [2 ^ k]⟩
  else ⟨Except.ok none, 0, 0, []⟩
termination_by max_retries - k
decreasing_by simp_wf; omega

/-- `fetch_html` of `src/scraper/scraper.py` (lines 28-55). -/
def fetch_html (o : Oracle) (max_retries : Nat) : FetchTrace :=
  fetch_htmlAux o max_retries 0

end Scraper

namespace Pyp

/-- Environment of one `fetch_html` run of `scraper_pyppeteer.py`: whether
`launch` succeeds on attempt `k`, what the page load yields when it does
(`none` models a raised exception), and whether `browser.close()` succeeds. -/
structure Oracle where
  launchOk : Nat → Bool
  body : Nat → Option Doc
  closeOk : Nat → Bool

/-- Observable trace of one Pyppeteer `fetch_html` run: the returned value,
the number of attempts, the number of browser sessions actually launched, the
number of `browser.close()` invocations, and the backoff delays. -/
structure FetchTrace where
  result : Except String (Option Doc)
  calls : Nat
  sessions : Nat
  teardowns : Nat
  delays : List Nat

/-- The retry loop of `fetch_html` of `scraper_pyppeteer.py` (lines 40-63).
`browser.close()` runs in `finally` under `if browser:` and its own
try/except, so a close failure is logged and never escapes; a failed launch
leaves `browser` as `None` and skips the close. -/
def fetch_htmlAux (o : Oracle) (max_retries k : Nat) : FetchTrace :=
  if k < max_retries then
    if o.launchOk k then
      match o.body k with
      | some html => ⟨Except.ok (some html), 1, 1, 1, []⟩
      | none =>
          if k = max_retries - 1 then ⟨Except.ok none, 1, 1, 1, []⟩
          else
            let t := fetch_htmlAux o max_retries (k + 1)
            ⟨t.result, t.calls + 1, t.sessions + 1, t.teardowns + 1,
             2 ^ k :: t.delays⟩
    else
      if k = max_retries - 1 then ⟨Except.ok none, 1, 0, 0, []⟩
      else
        let t := fetch_htmlAux o max_retries (k + 1)
        ⟨t.result, t.calls + 1, t.sessions, t.teardowns, 2 ^ k :: t.delays⟩
  else ⟨Except.ok none, 0, 0, 0, []⟩
termination_by max_retries - k
decreasing_by all_goals (simp_wf; omega)

/-- `fetch_html` of `src/wikicrow/scraper_pyppeteer.py` (lines 38-63). -/
def fetch_html (o : Oracle) (max_retries : Nat) : FetchTrace :=
  fetch_htmlAux o max_retries 0

end Pyp

namespace MyGene

/-- One hit returned by `mg.querymany`; the script only inspects the
`notfound` marker and the `query` key. -/
structure Hit where
  query : String
  notfound : Bool

/-- What one `mg.querymany` call does on a given attempt. -/
inductive QueryOutcome where
  | ok (hits : List Hit) (missing : List String)
  | httpStatus (code : Nat)
  | exc

/-- Observable trace of one `fetch_gene_data` run: the returned pair, the
number of `mg.querymany` calls, and the backoff delays slept, in order. -/
structure FetchTrace where
  result : Option (List Hit) × List String
  calls : Nat
  delays : List Nat

/-- The retry loop of `fetch_gene_data` of `download_genes.py` (lines 31-65),
from attempt `k` with `max_retries = 5`: HTTP 429 sleeps
`min(2 ** attempt, 10)` (even on the final attempt) and retries; any other
HTTP status or any other exception returns `(None, gene_names)` at once;
exhaustion returns `(None, gene_names)`. -/
def fetch_gene_dataAux (transport : Nat → QueryOutcome) (gene_names : List String)
    (max_retries k : Nat) : FetchTrace :=
  if k < max_retries then
    match transport k with
    | QueryOutcome.ok hits missing =>
        ⟨(some (hits.filter (fun h => !h.notfound)), missing), 1, []⟩
    | QueryOutcome.httpStatus code =>
        if code = 429 then
          let t := fetch_gene_dataAux transport gene_names max_retries (k + 1)
          ⟨t.result, t.calls + 1, min (2 ^ k) 10 :: t.delays⟩
        else ⟨(none, gene_names), 1, []⟩
    | QueryOutcome.exc => ⟨(none, gene_names), 1, []⟩
  else ⟨(none, gene_names), 0, []⟩
termination_by max_retries - k
decreasing_by simp_wf; omega

/-- `fetch_gene_data` of `src/mygene_info/download_genes.py` (lines 31-65);
`max_retries` is hard-coded to 5. -/
def fetch_gene_data (transport : Nat → QueryOutcome) (gene_names : List String) :
    FetchTrace :=
  fetch_gene_dataAux transport gene_names 5 0

/-- The rate-limiting wait of `process_genes` (lines 84-92):
`max(0, 1 - (now - last))` seconds. -/
def rateWait (now last : ℚ) : ℚ := max 0 (1 - (now - last))

/-- Timing shape of one `process_genes` call: how long after the previous
fetch returned the call reaches the rate gate, and how long its fetch takes. -/
structure CallShape where
  idle : ℚ
  dur : ℚ

/-- Timing of a sequence of `process_genes` calls (lines 82-102): each call
reaches the gate `idle` after the recorded last-return time, sleeps the
remaining fraction of the 1-second interval, fetches for `dur`, and records
its return time in `last_request_time['global']`.  Yields the (start, return)
instants of each guarded fetch. -/
def runCalls (last : ℚ) : List CallShape → List (ℚ × ℚ)
  | [] => []
  | c :: rest =>
      let now := last + c.idle
      let start := now + rateWait now last
      let ret := start + c.dur
      (start, ret) :: runCalls ret rest

end MyGene

namespace Biogrid

/-- The 24 column names assigned to the downloaded TSV
(`biogrid_scraper.py` lines 53-79). -/
def column_names : List String :=
  ["BioGRID Interaction ID",
   "Entrez Gene ID for Interactor A",
   "Entrez Gene ID for Interactor B",
   "BioGRID ID for Interactor A",
   "BioGRID ID for Interactor B",
   "Systematic name for Interactor A",
   "Systematic name for Interactor B",
   "Official symbol for Interactor A",
   "Official symbol for Interactor B",
   "Synonyms/Aliases for Interactor A",
   "Synonyms/Aliases for Interactor B",
   "Experimental System Name",
   "Experimental System Type",
   "First author surname of the publication",
   "Pubmed ID of the publication",
   "Organism ID for Interactor A",
   "Organism ID for Interactor B",
   "Interaction Throughput",
   "Quantitative Score",
   "Post Translational Modification",
   "Phenotypes",
   "Qualifications",
   "Tags",
   "Source Database"]

/-- The five columns kept by the filter (`biogrid_scraper.py` lines 80-87). -/
def filtered_column_names : List String :=
  ["Official symbol for Interactor A",
   "Official symbol for Interactor B",
   "Synonyms/Aliases for Interactor A",
   "Synonyms/Aliases for Interactor B",
   "Quantitative Score"]

/-- The raw `Quantitative Score` cell of one TSV row: the `-` sentinel, a
numeric literal (modelled by its rational value — the script only compares
and sorts scores, so exact decimal arithmetic is faithful), or a malformed
cell on which `astype(float)` raises. -/
inductive RawScore where
  | dash
  | num (q : ℚ)
  | malformed
deriving DecidableEq

/-- One row of the downloaded interaction table, keeping the five consumed
columns, the raw score cell, and the remaining column values. -/
structure RawRow where
  symbolA : String
  symbolB : String
  synonymsA : String
  synonymsB : String
  score : RawScore
  rest : List String

/-- One row of the persisted CSV: the five retained columns with the score
coerced to a number. -/
structure OutRow where
  symbolA : String
  symbolB : String
  synonymsA : String
  synonymsB : String
  score : ℚ
deriving DecidableEq

/-- `df["Quantitative Score"].replace("-", "0").astype(float)` on one cell
(line 89): the sentinel becomes 0.0, a numeric literal becomes its value, a
malformed cell raises `ValueError`. -/
def coerceScore : RawScore → Except String ℚ
  | RawScore.dash => Except.ok 0
  | RawScore.num q => Except.ok q
  | RawScore.malformed => Except.error "ValueError"

/-- Descending-score order used by `sort_values("Quantitative Score",
ascending=False)` (line 91). -/
def rowLe (a b : OutRow) : Prop := b.score ≤ a.score

instance : DecidableRel rowLe := fun a b => inferInstanceAs (Decidable (b.score ≤ a.score))

instance : IsTotal OutRow rowLe := ⟨fun a b => le_total b.score a.score⟩

instance : IsTrans OutRow rowLe := ⟨fun _ _ _ h1 h2 => le_trans h2 h1⟩

/-- `.replace("-", "0").astype(float)` over the whole score column
(line 89): the first malformed cell makes the cast raise. -/
def coerceColumn : List RawRow → Except String (List OutRow)
  | [] => Except.ok []
  | r :: rest =>
      match coerceScore r.score with
      | Except.error e => Except.error e
      | Except.ok q =>
          match coerceColumn rest with
          | Except.error e => Except.error e
          | Except.ok out =>
              Except.ok (OutRow.mk r.symbolA r.symbolB r.synonymsA r.synonymsB q :: out)

/-- The processing pipeline of `fetch_and_process_biogrid_data`
(lines 80-92): keep the five columns, coerce the score, sort by score
descending, drop rows with score ≤ 0.  A malformed score cell makes
`astype(float)` raise, which the wrapper catches. -/
def processBody (rows : List RawRow) : Except String (List OutRow) :=
  match coerceColumn rows with
  | Except.error e => Except.error e
  | Except.ok conv =>
      Except.ok ((List.insertionSort rowLe conv).filter (fun r => 0 < r.score))

/-- `fetch_and_process_biogrid_data` of `src/biogrid/biogrid_scraper.py`
(lines 26-103).  The HTTP request, `raise_for_status`, and the TSV parse are
summarised by the `resp` argument; the whole body sits in try/except blocks
that only log, so a failure anywhere yields `none` — no CSV is written and no
exception escapes.  On success the persisted CSV is the header (the five
retained columns) plus the processed rows. -/
def fetch_and_process_biogrid_data (resp : Except String (List RawRow)) :
    Option (List String × List OutRow) :=
  match (match resp with
         | Except.error e => Except.error e
         | Except.ok rows => processBody rows : Except String (List OutRow)) with
  | Except.error _ => none
  | Except.ok out => some (filtered_column_names, out)

end Biogrid

/-- The spec's three-way validation outcome: `Valid`, `Warning(reason)`, or
`Invalid` (the spec's invalid reasons are descriptive labels, abstracted
here). -/
inductive ValidationOutcome where
  | valid
  | warning (reason : String)
  | invalid
deriving DecidableEq

/-- How the code's `(bool, message)` pair is read as a validation outcome:
`(True, reason)` declares a warning, `(True, None)` is valid, `(False, _)` is
invalid. -/
def interp : Bool × Option String → ValidationOutcome
  | (true, some r) => ValidationOutcome.warning r
  | (true, none) => ValidationOutcome.valid
  | (false, _) => ValidationOutcome.invalid

/-- Modelled from the spec: the four-step first-match classification of
§4.4 — empty/absent content is invalid; an explicit insufficient-data marker
(a `div` with `data-status="warning"` or an `h2` reading `Warning`) yields a
warning with the source-declared reason; the primary-content marker (an `h2`
reading `Info`) yields valid; otherwise invalid. -/
def classifySpec (html_content : Option Doc) : ValidationOutcome :=
  match html_content with
  | none => ValidationOutcome.invalid
  | some d =>
    if d.isEmpty then ValidationOutcome.invalid
    else if (findWarningDiv d).isSome then ValidationOutcome.warning msgResearch
    else if (findH2 d "Warning").isSome then ValidationOutcome.warning msgSources
    else if (findH2 d "Info").isSome then ValidationOutcome.valid
    else ValidationOutcome.invalid

/-- Looking up the key just written by a Python dict assignment. -/
theorem recordSet_lookup_self (r : Record) (k : String) (v : Value) :
    (recordSet r k v).lookup k = some v := by
  induction r with
  | nil => simp [recordSet, List.lookup]
  | cons kv rest ih =>
      by_cases hk : kv.1 = k
      · simp [recordSet, hk, List.lookup]
      · have hb : (k == kv.1) = false :=
          beq_eq_false_iff_ne.mpr (fun e => hk e.symm)
        simp [recordSet, hk, List.lookup, hb, ih]

/-- An environment whose page load fails on every attempt and whose
`driver.quit()` always succeeds. -/
def alwaysFailOracle : Scraper.Oracle := ⟨fun _ => none, fun _ => true⟩

/-- Trace of the Selenium retry loop under a permanently failing transport
with clean teardown, from any attempt index. -/
theorem scraper_fetch_fail_aux (o : Scraper.Oracle) (hb : ∀ k, o.body k = none)
    (hq : ∀ k, o.quitOk k = true) :
    ∀ j m k, m - k ≤ j →
      (Scraper.fetch_htmlAux o m k).calls = m - k ∧
      (Scraper.fetch_htmlAux o m k).result = Except.ok none ∧
      (Scraper.fetch_htmlAux o m k).delays =
        (List.range' k (m - 1 - k)).map (2 ^ ·) := by
  intro j
  induction j with
  | zero =>
      intro m k h
      have hk : ¬k < m := by omega
      rw [Scraper.fetch_htmlAux]
      simp [hk]
      omega
  | succ j ih =>
      intro m k h
      by_cases hk : k < m
      · rw [Scraper.fetch_htmlAux]
        simp only [hk, if_true, hb k, hq k]
        by_cases hlast : k = m - 1
        · have h1 : m - k = 1 := by omega
          have h2 : m - 1 - k = 0 := by omega
          simp [hlast, h1, h2]
          omega
        · obtain ⟨c, r, d⟩ := ih m (k + 1) (by omega)
          simp only [hlast, if_false, if_true]
          refine ⟨by rw [c]; omega, r, ?_⟩
          have h3 : m - 1 - k = (m - 1 - (k + 1)) + 1 := by omega
          rw [d, h3]
          rfl
      · rw [Scraper.fetch_htmlAux]
        simp [hk]
        omega

/-- Trace of the Pyppeteer retry loop under successful launches and a
permanently failing page load, from any attempt index: one attempt per index
and an uncapped `2 ** attempt` sleep after each non-final attempt. -/
theorem pyp_fetch_fail_aux (o : Pyp.Oracle) (hl : ∀ k, o.launchOk k = true)
    (hb : ∀ k, o.body k = none) :
    ∀ j m k, m - k ≤ j →
      (Pyp.fetch_htmlAux o m k).calls = m - k ∧
      (Pyp.fetch_htmlAux o m k).result = Except.ok none ∧
      (Pyp.fetch_htmlAux o m k).delays =
        (List.range' k (m - 1 - k)).map (2 ^ ·) := by
  intro j
  induction j with
  | zero =>
      intro m k h
      have hk : ¬k < m := by omega
      rw [Pyp.fetch_htmlAux]
      simp [hk]
      omega
  | succ j ih =>
      intro m k h
      by_cases hk : k < m
      · rw [Pyp.fetch_htmlAux]
        simp only [hk, if_true, hl k, hb k]
        by_cases hlast : k = m - 1
        · have h1 : m - k = 1 := by omega
          have h2 : m - 1 - k = 0 := by omega
          simp [hlast, h1, h2]
          omega
        · obtain ⟨c, r, d⟩ := ih m (k + 1) (by omega)
          simp only [hlast, if_false, if_true]
          refine ⟨by rw [c]; omega, r, ?_⟩
          have h3 : m - 1 - k = (m - 1 - (k + 1)) + 1 := by omega
          rw [d, h3]
          rfl
      · rw [Pyp.fetch_htmlAux]
        simp [hk]
        omega

/-- Trace of the mygene retry loop under a transport that answers HTTP 429 on
every attempt, from any attempt index: each attempt sleeps
`min(2 ** attempt, 10)` (also on the final one). -/
theorem mygene_429_aux (t : Nat → MyGene.QueryOutcome) (gs : List String)
    (h : ∀ k, t k = MyGene.QueryOutcome.httpStatus 429) :
    ∀ j m k, m - k ≤ j →
      (MyGene.fetch_gene_dataAux t gs m k).calls = m - k ∧
      (MyGene.fetch_gene_dataAux t gs m k).result = (none, gs) ∧
      (MyGene.fetch_gene_dataAux t gs m k).delays =
        (List.range' k (m - k)).map (fun i => min (2 ^ i) 10) := by
  intro j
  induction j with
  | zero =>
      intro m k hj
      have hk : ¬k < m := by omega
      rw [MyGene.fetch_gene_dataAux]
      simp [hk]
      omega
  | succ j ih =>
      intro m k hj
      by_cases hk : k < m
      · rw [MyGene.fetch_gene_dataAux]
        simp only [hk, if_true, h k, if_pos rfl]
        obtain ⟨c, r, d⟩ := ih m (k + 1) (by omega)
        refine ⟨by rw [c]; omega, r, ?_⟩
        have h3 : m - k = (m - (k + 1)) + 1 := by omega
        rw [d, h3]
        rfl
      · rw [MyGene.fetch_gene_dataAux]
        simp [hk]
        omega

/-- C5: for every fetch variant, a transport that fails retryably on every
attempt is called exactly `max_retries` times, after which the fetch returns
an unsuccessful result instead of raising: the Selenium and Pyppeteer
`fetch_html` loops make `max_retries` attempts and return `None`, and
`fetch_gene_data` makes its hard-coded 5 attempts under perpetual HTTP 429
and returns `(None, gene_names)`. -/
theorem c5_retry_bound_exact :
    (∀ (o : Scraper.Oracle) m, (∀ k, o.body k = none) → (∀ k, o.quitOk k = true) →
      (Scraper.fetch_html o m).calls = m ∧
      (Scraper.fetch_html o m).result = Except.ok none) ∧
    (∀ (o : Pyp.Oracle) m, (∀ k, o.launchOk k = true) → (∀ k, o.body k = none) →
      (Pyp.fetch_html o m).calls = m ∧
      (Pyp.fetch_html o m).result = Except.ok none) ∧
    (∀ (t : Nat → MyGene.QueryOutcome) gs,
      (∀ k, t k = MyGene.QueryOutcome.httpStatus 429) →
      (MyGene.fetch_gene_data t gs).calls = 5 ∧
      (MyGene.fetch_gene_data t gs).result = (none, gs)) := by
  refine ⟨fun o m hb hq => ?_, fun o m hl hb => ?_, fun t gs h => ?_⟩
  · obtain ⟨c, r, _⟩ := scraper_fetch_fail_aux o hb hq m m 0 (by omega)
    exact ⟨by simpa using c, r⟩
  · obtain ⟨c, r, _⟩ := pyp_fetch_fail_aux o hl hb m m 0 (by omega)
    exact ⟨by simpa using c, r⟩
  · obtain ⟨c, r, _⟩ := mygene_429_aux t gs h 5 5 0 (by omega)
    exact ⟨by simpa using c, r⟩

/-- Witness for C5 at `max_retries = 3` (Selenium and Pyppeteer) and the
hard-coded 5 attempts of `fetch_gene_data`. -/
theorem c5_retry_bound_exact_witness :
    (Scraper.fetch_html alwaysFailOracle 3).calls = 3 ∧
    (Scraper.fetch_html alwaysFailOracle 3).result = Except.ok none ∧
    (Pyp.fetch_html ⟨fun _ => true, fun _ => none, fun _ => true⟩ 3).calls = 3 ∧
    (MyGene.fetch_gene_data (fun _ => MyGene.QueryOutcome.httpStatus 429)
      ["BRCA1"]).calls = 5 := by
  refine ⟨(c5_retry_bound_exact.1 alwaysFailOracle 3 (fun _ => rfl) (fun _ => rfl)).1,
          (c5_retry_bound_exact.1 alwaysFailOracle 3 (fun _ => rfl) (fun _ => rfl)).2,
          (c5_retry_bound_exact.2.1 ⟨fun _ => true, fun _ => none, fun _ => true⟩ 3
            (fun _ => rfl) (fun _ => rfl)).1,
          (c5_retry_bound_exact.2.2 (fun _ => MyGene.QueryOutcome.httpStatus 429)
            ["BRCA1"] (fun _ => rfl)).1⟩

/-- Delay schedule of the Selenium fetch loop under perpetual failure:
`2 ** attempt` for each non-final attempt, with no cap applied. -/
theorem scraper_fail_delays (m : Nat) :
    (Scraper.fetch_html alwaysFailOracle m).delays =
      (List.range (m - 1)).map (2 ^ ·) := by
  obtain ⟨_, _, d⟩ := scraper_fetch_fail_aux alwaysFailOracle
    (fun _ => rfl) (fun _ => rfl) m m 0 (by omega)
  rw [Scraper.fetch_html] at *
  rw [d, List.range_eq_range' (m - 1)]
  simp

/-- An environment for the Pyppeteer loop whose launches succeed, whose page
load fails on every attempt, and whose `browser.close()` always succeeds. -/
def pypAlwaysFailOracle : Pyp.Oracle := ⟨fun _ => true, fun _ => none, fun _ => true⟩

/-- Delay schedule of the Pyppeteer fetch loop under perpetual page-load
failure: the same uncapped `2 ** attempt` (scraper_pyppeteer.py line 57). -/
theorem pyp_fail_delays (m : Nat) :
    (Pyp.fetch_html pypAlwaysFailOracle m).delays =
      (List.range (m - 1)).map (2 ^ ·) := by
  obtain ⟨_, _, d⟩ := pyp_fetch_fail_aux pypAlwaysFailOracle
    (fun _ => rfl) (fun _ => rfl) m m 0 (by omega)
  rw [Pyp.fetch_html] at *
  rw [d, List.range_eq_range' (m - 1)]
  simp

/-- The doubling schedule `2 ** 0, 2 ** 1, ...` is non-decreasing. -/
theorem chain_pow_range (m : Nat) :
    List.Chain' (· ≤ ·) ((List.range m).map (2 ^ ·)) := by
  refine List.Pairwise.chain' (List.pairwise_map.mpr ?_)
  rw [List.range_eq_range' m]
  refine (List.pairwise_lt_range' 0 m 1).imp ?_
  intro a b hab
  exact Nat.pow_le_pow_right (by omega) (le_of_lt hab)

/-- C4 counterexample: the claim asserts every retry delay equals
`min(2 ** k, cap)` and never exceeds the configured cap, but the Selenium
`fetch_html` (scraper.py lines 47-53) applies no `min` at all: under a
permanently failing transport with `max_retries = 6` its delay schedule is
`[1, 2, 4, 8, 16]` — the fifth delay 16 exceeds the only cap configured in
the repository (10, download_genes.py line 45) — and in general the schedule
`2 ** k` exceeds every finite cap. -/
theorem c4_counterexample :
    (Scraper.fetch_html alwaysFailOracle 6).delays = [1, 2, 4, 8, 16] ∧
    (16 : Nat) > 10 ∧
    (∀ cap : Nat, ∃ m dd, dd ∈ (Scraper.fetch_html alwaysFailOracle m).delays ∧
      cap < dd) := by
  refine ⟨by rw [scraper_fail_delays]; rfl, by omega, fun cap => ?_⟩
  refine ⟨cap + 2, 2 ^ cap, ?_, Nat.lt_two_pow cap⟩
  rw [scraper_fail_delays]
  exact List.mem_map_of_mem _ (List.mem_range.mpr (by omega))

/-- C4 amended: the batch-metadata fetcher (`download_genes.py` line 45)
delays `min(2 ** attempt, 10)` before (and on) each retried 429 — its delay
schedule under perpetual 429 is `[1, 2, 4, 8, 10]`, non-decreasing and capped
at 10 — while the page fetchers delay an uncapped `2 ** attempt`
(`scraper.py` line 47, `scraper_pyppeteer.py` line 57); all three schedules
are jitter-free and non-decreasing. -/
theorem c4_backoff_schedules :
    (∀ gs : List String,
      (MyGene.fetch_gene_data (fun _ => MyGene.QueryOutcome.httpStatus 429) gs).delays
        = [1, 2, 4, 8, 10]) ∧
    List.Chain' (· ≤ ·) [1, 2, 4, 8, 10] ∧
    (∀ dd ∈ [1, 2, 4, 8, 10], dd ≤ 10) ∧
    (∀ k, k < 5 → [1, 2, 4, 8, 10].getD k 0 = min (2 ^ k) 10) ∧
    (∀ m, (Scraper.fetch_html alwaysFailOracle m).delays =
      (List.range (m - 1)).map (2 ^ ·)) ∧
    (∀ m, List.Chain' (· ≤ ·) (Scraper.fetch_html alwaysFailOracle m).delays) ∧
    (∀ m, (Pyp.fetch_html pypAlwaysFailOracle m).delays =
      (List.range (m - 1)).map (2 ^ ·)) ∧
    (∀ m, List.Chain' (· ≤ ·) (Pyp.fetch_html pypAlwaysFailOracle m).delays) := by
  refine ⟨fun gs => ?_, by norm_num [List.chain'_cons], by decide, by decide,
    scraper_fail_delays,
    fun m => by rw [scraper_fail_delays]; exact chain_pow_range (m - 1),
    pyp_fail_delays,
    fun m => by rw [pyp_fail_delays]; exact chain_pow_range (m - 1)⟩
  obtain ⟨_, _, d⟩ := mygene_429_aux (fun _ => MyGene.QueryOutcome.httpStatus 429) gs
    (fun _ => rfl) 5 5 0 (by omega)
  rw [MyGene.fetch_gene_data] at *
  rw [d]
  rfl

/-- Witness for C4's amended theorem: the implications instantiated at
`k = 3` and at the concrete 429 schedule. -/
theorem c4_backoff_schedules_witness :
    (MyGene.fetch_gene_data (fun _ => MyGene.QueryOutcome.httpStatus 429)
      ["BRCA1"]).delays = [1, 2, 4, 8, 10] ∧
    [1, 2, 4, 8, 10].getD 3 0 = min (2 ^ 3) 10 ∧
    (8 : Nat) ∈ [1, 2, 4, 8, 10] ∧ (8 : Nat) ≤ 10 :=
  ⟨c4_backoff_schedules.1 ["BRCA1"],
   c4_backoff_schedules.2.2.2.1 3 (by omega),
   by decide,
   c4_backoff_schedules.2.2.1 8 (by decide)⟩

/-- In the Selenium loop, `driver.quit()` runs in `finally` on every attempt:
the teardown count always equals the attempt count, whatever the transport
and teardown outcomes. -/
theorem scraper_teardown_aux (o : Scraper.Oracle) :
    ∀ j m k, m - k ≤ j →
      (Scraper.fetch_htmlAux o m k).teardowns = (Scraper.fetch_htmlAux o m k).calls := by
  intro j
  induction j with
  | zero =>
      intro m k h
      have hk : ¬k < m := by omega
      rw [Scraper.fetch_htmlAux]
      simp [hk]
  | succ j ih =>
      intro m k h
      by_cases hk : k < m
      · rw [Scraper.fetch_htmlAux]
        simp only [hk, if_true]
        cases o.body k with
        | some html => cases o.quitOk k <;> simp
        | none =>
            by_cases hlast : k = m - 1
            · cases o.quitOk k <;> simp [hlast]
            · cases hq : o.quitOk k with
              | true =>
                  have := ih m (k + 1) (by omega)
                  simp [hlast, hq, this]
              | false => simp [hlast, hq]
      · rw [Scraper.fetch_htmlAux]
        simp [hk]

/-- In the Pyppeteer loop, `browser.close()` runs (inside its own
try/except) exactly once per successfully launched session, and the loop
never lets any exception escape — the result is always `Except.ok`. -/
theorem pyp_teardown_aux (o : Pyp.Oracle) :
    ∀ j m k, m - k ≤ j →
      (Pyp.fetch_htmlAux o m k).teardowns = (Pyp.fetch_htmlAux o m k).sessions ∧
      ∃ r, (Pyp.fetch_htmlAux o m k).result = Except.ok r := by
  intro j
  induction j with
  | zero =>
      intro m k h
      have hk : ¬k < m := by omega
      rw [Pyp.fetch_htmlAux]
      simp [hk]
  | succ j ih =>
      intro m k h
      by_cases hk : k < m
      · rw [Pyp.fetch_htmlAux]
        simp only [hk, if_true]
        cases hl : o.launchOk k with
        | true =>
            cases o.body k with
            | some html => simp
            | none =>
                by_cases hlast : k = m - 1
                · simp [hlast]
                · obtain ⟨h1, r, hr⟩ := ih m (k + 1) (by omega)
                  simp only [hlast, if_false]
                  exact ⟨by simp [h1], r, by simp [hr]⟩
        | false =>
            by_cases hlast : k = m - 1
            · simp [hlast]
            · obtain ⟨h1, r, hr⟩ := ih m (k + 1) (by omega)
              simp only [hlast, if_false]
              exact ⟨by simp [h1], r, by simp [hr]⟩
      · rw [Pyp.fetch_htmlAux]
        simp [hk]

/-- C9 counterexample: the claim says a failing teardown is logged without
propagating, but in the Selenium `fetch_html` the bare `finally:
driver.quit()` (scraper.py lines 54-55) lets a teardown failure escape: with
a successful page load and a raising `quit`, the fetch returns the exception
to its caller instead of the fetched page. -/
theorem c9_counterexample :
    (Scraper.fetch_html ⟨fun _ => some [Node.text "page"], fun _ => false⟩ 1).result
      = Except.error "quit raised" ∧
    (Scraper.fetch_html ⟨fun _ => some [Node.text "page"], fun _ => false⟩ 1).result
      ≠ Except.ok (some [Node.text "page"]) := by
  constructor <;>
    simp [Scraper.fetch_html, Scraper.fetch_htmlAux]

/-- C9 amended: every rendering session opened during an attempt gets its
teardown invoked on every exit path in both variants (Selenium: one
`driver.quit()` per attempt; Pyppeteer: one `browser.close()` per launched
session); in the Pyppeteer variant a teardown failure is caught and logged so
the fetch never propagates an exception, while in the Selenium variant a
teardown failure propagates to the caller. -/
theorem c9_teardown_amended :
    (∀ (o : Scraper.Oracle) m,
      (Scraper.fetch_html o m).teardowns = (Scraper.fetch_html o m).calls) ∧
    (∀ (o : Pyp.Oracle) m,
      (Pyp.fetch_html o m).teardowns = (Pyp.fetch_html o m).sessions) ∧
    (∀ (o : Pyp.Oracle) m, ∃ r, (Pyp.fetch_html o m).result = Except.ok r) ∧
    (∃ o : Scraper.Oracle, ∃ m e, (Scraper.fetch_html o m).result = Except.error e) := by
  refine ⟨fun o m => scraper_teardown_aux o m m 0 (by omega),
          fun o m => (pyp_teardown_aux o m m 0 (by omega)).1,
          fun o m => (pyp_teardown_aux o m m 0 (by omega)).2,
          ⟨⟨fun _ => some [Node.text "page"], fun _ => false⟩, 1, "quit raised", ?_⟩⟩
  simp [Scraper.fetch_html, Scraper.fetch_htmlAux]

/-- The first guarded fetch of a `runCalls` sequence starts at least one
second after the recorded last-return instant: the sleep
`max(0, 1 - (now - last))` restores the full interval. -/
theorem mygene_runCalls_head (last : ℚ) (cs : List MyGene.CallShape) :
    ∀ p ∈ (MyGene.runCalls last cs).head?, last + 1 ≤ p.1 := by
  cases cs with
  | nil => simp [MyGene.runCalls]
  | cons c rest =>
      intro p hp
      simp only [MyGene.runCalls, List.head?_cons, Option.mem_def,
        Option.some.injEq] at hp
      subst hp
      simp only [MyGene.rateWait]
      have h1 : last + c.idle + (1 - (last + c.idle - last)) = last + 1 := by ring
      have h2 : (1 - (last + c.idle - last) : ℚ) ≤ max 0 (1 - (last + c.idle - last)) :=
        le_max_right _ _
      linarith

/-- C8: in every run of `process_genes` batches, each guarded fetch starts at
least `min_interval = 1` second after the previous guarded fetch returned
(and the first starts at least one second after the recorded last-return
instant): the gate sleeps the remaining fraction of the interval
(download_genes.py lines 84-92) and the return timestamp is recorded after
the fetch (line 95). -/
theorem c8_rate_gate_spacing (last : ℚ) (cs : List MyGene.CallShape) :
    List.Chain' (fun a b => a.2 + 1 ≤ b.1) (MyGene.runCalls last cs) ∧
    (∀ p ∈ (MyGene.runCalls last cs).head?, last + 1 ≤ p.1) := by
  refine ⟨?_, mygene_runCalls_head last cs⟩
  induction cs generalizing last with
  | nil => simp [MyGene.runCalls]
  | cons c rest ih =>
      rw [MyGene.runCalls, List.chain'_cons']
      exact ⟨mygene_runCalls_head _ rest, ih _⟩

namespace Scraper

/-- C7 (Selenium half, used through the conjunction below): nothing happens
before the JSON-existence check. -/
theorem scraper_process_gene_cached (gene_name : String) (fetched : Option Doc)
    (fs : FS) (r : Record) (h : fs.json = some r) :
    process_gene gene_name fetched fs = Except.ok (fs, 0) := by
  unfold process_gene
  simp [h]

end Scraper

namespace Pyp

/-- C7 (Pyppeteer half): nothing happens before the JSON-existence check. -/
theorem pyp_process_gene_cached (gene_name : String) (fetched : Option Doc)
    (fs : FS) (r : Record) (h : fs.json = some r) :
    process_gene gene_name fetched fs = Except.ok (fs, 0) := by
  unfold process_gene
  simp [h]

end Pyp

/-- C7: when the identifier's complete JSON artifact already exists, both
`process_gene` variants return before any fetch — zero `fetch_html` calls,
filesystem state unchanged — whatever the pending fetch would have
returned. -/
theorem c7_cache_hit_skips (gene_name : String) (fetched : Option Doc)
    (fs : FS) (r : Record) (h : fs.json = some r) :
    Scraper.process_gene gene_name fetched fs = Except.ok (fs, 0) ∧
    Pyp.process_gene gene_name fetched fs = Except.ok (fs, 0) :=
  ⟨Scraper.scraper_process_gene_cached gene_name fetched fs r h,
   Pyp.pyp_process_gene_cached gene_name fetched fs r h⟩

/-- Witness for C7: identifier `BRCA1` with an existing artifact. -/
theorem c7_cache_hit_skips_witness :
    Scraper.process_gene "BRCA1" none
        ⟨some [("gene_name", Value.str "BRCA1")], none⟩ =
      Except.ok (⟨some [("gene_name", Value.str "BRCA1")], none⟩, 0) ∧
    Pyp.process_gene "BRCA1" none
        ⟨some [("gene_name", Value.str "BRCA1")], none⟩ =
      Except.ok (⟨some [("gene_name", Value.str "BRCA1")], none⟩, 0) :=
  c7_cache_hit_skips "BRCA1" none _ _ rfl

namespace Biogrid

/-- Unfolding equation for a successful HTTP+parse phase. -/
theorem fetch_and_process_ok (rows : List RawRow) :
    fetch_and_process_biogrid_data (Except.ok rows) =
      match processBody rows with
      | Except.error _ => none
      | Except.ok out => some (filtered_column_names, out) := rfl

/-- A row whose score cell cannot be coerced makes the whole conversion
(`astype(float)`, line 89) raise. -/
theorem processBody_malformed (rows : List RawRow)
    (h : ∃ r ∈ rows, r.score = RawScore.malformed) :
    ∃ e, processBody rows = Except.error e := by
  unfold processBody
  suffices hm : ∃ e, coerceColumn rows = Except.error e by
    obtain ⟨e, he⟩ := hm
    exact ⟨e, by rw [he]⟩
  induction rows with
  | nil => simp at h
  | cons r0 rest ih =>
      rcases h with ⟨r, hr, hs⟩
      rcases List.mem_cons.mp hr with rfl | hmem
      · rw [coerceColumn, hs]
        exact ⟨"ValueError", rfl⟩
      · rw [coerceColumn]
        cases hc : coerceScore r0.score with
        | error e => exact ⟨e, rfl⟩
        | ok q =>
            obtain ⟨e, he⟩ := ih ⟨r, hmem, hs⟩
            exact ⟨e, by rw [he]⟩

/-- Every row kept by the final filter has a positive score, and the
descending order produced by `sort_values` survives the filter. -/
theorem processBody_sorted_pos (rows : List RawRow) (out : List OutRow)
    (h : processBody rows = Except.ok out) :
    List.Pairwise (fun a b => b.score ≤ a.score) out ∧
    ∀ r ∈ out, 0 < r.score := by
  unfold processBody at h
  cases hm : coerceColumn rows with
  | error e => rw [hm] at h; cases h
  | ok conv =>
      rw [hm] at h
      cases h
      constructor
      · exact ((List.sorted_insertionSort rowLe conv).filter _)
      · intro r hr
        have := List.of_mem_filter hr
        exact of_decide_eq_true this

end Biogrid

/-- The fixture rows of the CSV filter law: scores `-`, `0`, `3.2`, `-1`. -/
def testRows : List Biogrid.RawRow :=
  [⟨"A1", "B1", "sa1", "sb1", Biogrid.RawScore.dash, []⟩,
   ⟨"A2", "B2", "sa2", "sb2", Biogrid.RawScore.num 0, []⟩,
   ⟨"A3", "B3", "sa3", "sb3", Biogrid.RawScore.num 3.2, []⟩,
   ⟨"A4", "B4", "sa4", "sb4", Biogrid.RawScore.num (-1), []⟩]

/-- C6: the persisted CSV keeps exactly the five allowed columns; the `-`
sentinel is coerced to 0.0; rows with score ≤ 0 are dropped; the remaining
rows are sorted by score descending; and the fixture with scores
`["-", "0", "3.2", "-1"]` yields the single row with score 3.2. -/
theorem c6_csv_filter_law :
    (∀ resp out, Biogrid.fetch_and_process_biogrid_data resp = some out →
      out.1 = Biogrid.filtered_column_names) ∧
    Biogrid.filtered_column_names =
      ["Official symbol for Interactor A", "Official symbol for Interactor B",
       "Synonyms/Aliases for Interactor A", "Synonyms/Aliases for Interactor B",
       "Quantitative Score"] ∧
    Biogrid.coerceScore Biogrid.RawScore.dash = Except.ok 0 ∧
    (∀ rows out, Biogrid.processBody rows = Except.ok out →
      List.Pairwise (fun a b => b.score ≤ a.score) out ∧ ∀ r ∈ out, 0 < r.score) ∧
    Biogrid.processBody testRows =
      Except.ok [⟨"A3", "B3", "sa3", "sb3", 3.2⟩] := by
  refine ⟨?_, rfl, rfl, Biogrid.processBody_sorted_pos, by
    norm_num [Biogrid.processBody, Biogrid.coerceColumn, Biogrid.coerceScore, testRows,
      List.insertionSort, List.orderedInsert, Biogrid.rowLe, List.filter]⟩
  intro resp out h
  cases resp with
  | error e => simp [Biogrid.fetch_and_process_biogrid_data] at h
  | ok rows =>
      rw [Biogrid.fetch_and_process_ok] at h
      cases hp : Biogrid.processBody rows with
      | error e => simp [hp] at h
      | ok o =>
          simp only [hp] at h
          cases h
          rfl

/-- Witness for C6: the quantified conjuncts instantiated on the fixture
run. -/
theorem c6_csv_filter_law_witness :
    (Biogrid.fetch_and_process_biogrid_data (Except.ok testRows) =
      some (Biogrid.filtered_column_names, [⟨"A3", "B3", "sa3", "sb3", 3.2⟩])) ∧
    (Biogrid.filtered_column_names, ([⟨"A3", "B3", "sa3", "sb3", (3.2 : ℚ)⟩] :
      List Biogrid.OutRow)).1 = Biogrid.filtered_column_names ∧
    List.Pairwise (fun a b : Biogrid.OutRow => b.score ≤ a.score)
      [⟨"A3", "B3", "sa3", "sb3", 3.2⟩] ∧
    ∀ r ∈ ([⟨"A3", "B3", "sa3", "sb3", 3.2⟩] : List Biogrid.OutRow), 0 < r.score := by
  have h5 := c6_csv_filter_law.2.2.2.2
  have hfull : Biogrid.fetch_and_process_biogrid_data (Except.ok testRows) =
      some (Biogrid.filtered_column_names, [⟨"A3", "B3", "sa3", "sb3", 3.2⟩]) := by
    rw [Biogrid.fetch_and_process_ok, h5]
  have hq := c6_csv_filter_law.2.2.2.1 testRows [⟨"A3", "B3", "sa3", "sb3", 3.2⟩] h5
  exact ⟨hfull, c6_csv_filter_law.1 (Except.ok testRows) _ hfull, hq.1, hq.2⟩

/-- C10: a failure of the HTTP request, the TSV parse, or any processing step
(here: a malformed score cell raising in `astype(float)`) leaves no CSV
artifact for the gene — `fetch_and_process_biogrid_data` yields `none` — and
the failure is contained (the function is total: it returns instead of
raising, matching the try/except that only logs). -/
theorem c10_biogrid_error_containment :
    (∀ e, Biogrid.fetch_and_process_biogrid_data (Except.error e) = none) ∧
    (∀ rows, (∃ r ∈ rows, r.score = Biogrid.RawScore.malformed) →
      Biogrid.fetch_and_process_biogrid_data (Except.ok rows) = none) := by
  refine ⟨fun e => rfl, fun rows h => ?_⟩
  obtain ⟨e, he⟩ := Biogrid.processBody_malformed rows h
  rw [Biogrid.fetch_and_process_ok, he]

/-- Witness for C10: an HTTP failure and a malformed-score table, both
leaving no artifact. -/
theorem c10_biogrid_error_containment_witness :
    Biogrid.fetch_and_process_biogrid_data
      (Except.error "HTTPError: 500 Server Error") = none ∧
    Biogrid.fetch_and_process_biogrid_data
      (Except.ok [⟨"A1", "B1", "sa1", "sb1", Biogrid.RawScore.malformed, []⟩]) = none :=
  ⟨c10_biogrid_error_containment.1 "HTTPError: 500 Server Error",
   c10_biogrid_error_containment.2 _ ⟨_, List.mem_singleton.mpr rfl, rfl⟩⟩

/-- Content with neither a warning marker nor the `Info` primary-content
marker: a lone paragraph. -/
def junkDoc : Doc := [Node.elem "p" [] [Node.text "junk"]]

/-- C2 counterexample: the Pyppeteer `validate_html` has no `Info` check —
non-empty content carrying neither an insufficient-data marker nor the
primary-content marker is classified Valid, where the claim's step 4 requires
Invalid (the spec-side classifier disagrees with the code on this input). -/
theorem c2_counterexample :
    junkDoc ≠ [] ∧
    findWarningDiv junkDoc = none ∧
    findH2 junkDoc "Warning" = none ∧
    findH2 junkDoc "Info" = none ∧
    Pyp.validate_html (some junkDoc) = (true, none) ∧
    interp (Pyp.validate_html (some junkDoc)) = ValidationOutcome.valid ∧
    classifySpec (some junkDoc) = ValidationOutcome.invalid := by
  refine ⟨by simp [junkDoc], ?_, ?_, ?_, ?_, ?_, ?_⟩ <;>
    simp [junkDoc, Pyp.validate_html, classifySpec, interp, findWarningDiv, findH2,
      soupFind, docLocs, locsUnder, Node.tagIs, Node.stringIs, Node.hasAttr]

/-- C2 amended: the Selenium `validate_html` implements the four-step
first-match classification exactly (empty/absent → Invalid; warning `div` or
warning `h2` → Warning with the source-declared reason; `Info` header →
Valid; otherwise Invalid), but the Pyppeteer variant replaces steps 3-4 by an
unconditional Valid: any non-empty content without a warning marker is
classified Valid. -/
theorem c2_validator_classification :
    (∀ html_content, interp (Scraper.validate_html html_content) =
      classifySpec html_content) ∧
    (∀ d : Doc, ¬d.isEmpty → findWarningDiv d = none → findH2 d "Warning" = none →
      interp (Pyp.validate_html (some d)) = ValidationOutcome.valid) := by
  constructor
  · intro html_content
    cases html_content with
    | none => rfl
    | some d =>
        simp only [Scraper.validate_html, classifySpec]
        split_ifs <;> rfl
  · intro d h1 h2 h3
    simp [Pyp.validate_html, h1, h2, h3, interp]

/-- Witness for C2's amended theorem, on the marker-less fixture. -/
theorem c2_validator_classification_witness :
    interp (Scraper.validate_html (some junkDoc)) = classifySpec (some junkDoc) ∧
    interp (Pyp.validate_html (some junkDoc)) = ValidationOutcome.valid :=
  ⟨c2_validator_classification.1 (some junkDoc),
   c2_validator_classification.2 junkDoc (by simp [junkDoc])
     (by simp [junkDoc, findWarningDiv, soupFind, docLocs, locsUnder,
       Node.tagIs, Node.hasAttr])
     (by simp [junkDoc, findH2, soupFind, docLocs, locsUnder,
       Node.tagIs, Node.stringIs])⟩

/-- A page whose `Info` header sits at top level with no enclosing `div`:
`find_parent('div')` yields `None` and the chained second `find_parent` call
raises `AttributeError`. -/
def bareInfoDoc : Doc := [Node.elem "h2" [] [Node.text "Info"]]

/-- C3 counterexample: the Selenium `extract_data` has no try/except — on a
page whose `Info` header has no enclosing `div`, line 112's
`info_header.find_parent('div').find_parent('div')` raises `AttributeError`
and the exception propagates out of `extract_data`. -/
theorem c3_counterexample :
    Scraper.extract_data (some bareInfoDoc) "TP53" =
      Except.error "AttributeError" := by
  simp [bareInfoDoc, Scraper.extract_data, Scraper.extractBody, Scraper.extractInfo,
    contentTruthy, bindR, findWarningDiv, findH2, soupFind, docLocs, locsUnder,
    Node.tagIs, Node.stringIs, Node.hasAttr, Loc.findParent]

/-- C3 amended: the Pyppeteer `extract_data` never propagates an exception —
its catch-all turns any internal fault into an `error` field on the partial
record, so the identifier always reaches persistence — while the Selenium
variant can propagate (see its counterexample).  For non-empty content the
Pyppeteer result is always a record, and whenever an extraction error is
reported the record carries it under `error`. -/
theorem c3_extraction_never_raises :
    (∀ html_content gene_name, ∃ res,
      Pyp.extract_data html_content gene_name = Except.ok res) ∧
    (∀ (d : Doc) gene_name, ¬d.isEmpty →
      ∃ r e, Pyp.extract_data (some d) gene_name = Except.ok (some r, e) ∧
        ∀ msg, e = some msg → r.lookup "error" = some (Value.str msg)) := by
  constructor
  · intro html_content gene_name
    cases html_content with
    | none => exact ⟨(none, some "HTML could not be fetched"), rfl⟩
    | some d =>
        by_cases he : d.isEmpty
        · exact ⟨(none, some "HTML could not be fetched"),
            by simp [Pyp.extract_data, contentTruthy, he]⟩
        · cases hb : Pyp.extractBody d gene_name with
          | ok data =>
              exact ⟨(some data, none),
                by simp [Pyp.extract_data, contentTruthy, he, hb]⟩
          | error p =>
              exact ⟨(some (recordSet p.2 "error"
                  (Value.str ("Extraction error: " ++ p.1))),
                some ("Extraction error: " ++ p.1)),
                by simp [Pyp.extract_data, contentTruthy, he, hb]⟩
  · intro d gene_name he
    cases hb : Pyp.extractBody d gene_name with
    | ok data =>
        refine ⟨data, none, by simp [Pyp.extract_data, contentTruthy, he, hb], ?_⟩
        intro msg hmsg
        cases hmsg
    | error p =>
        refine ⟨recordSet p.2 "error" (Value.str ("Extraction error: " ++ p.1)),
          some ("Extraction error: " ++ p.1),
          by simp [Pyp.extract_data, contentTruthy, he, hb], ?_⟩
        intro msg hmsg
        cases hmsg
        exact recordSet_lookup_self p.2 "error" _

/-- Witness for C3's amended theorem: the fixture that makes the Selenium
variant raise is absorbed by the Pyppeteer variant. -/
theorem c3_extraction_never_raises_witness :
    (∃ res, Pyp.extract_data (some bareInfoDoc) "TP53" = Except.ok res) ∧
    (∃ r e, Pyp.extract_data (some bareInfoDoc) "TP53" = Except.ok (some r, e) ∧
      ∀ msg, e = some msg → r.lookup "error" = some (Value.str msg)) :=
  ⟨c3_extraction_never_raises.1 (some bareInfoDoc) "TP53",
   c3_extraction_never_raises.2 bareInfoDoc "TP53" (by simp [bareInfoDoc])⟩

/-- C1 counterexample: with no cached artifact and `fetch_html` returning no
content, both `process_gene` variants DO persist a JSON artifact — the record
`{"gene_name": ..., "error": "HTML could not be fetched"}` — where the claim
says no JSON file is written. -/
theorem c1_counterexample :
    Scraper.process_gene "FAKEGENE" none ⟨none, none⟩ =
      Except.ok (⟨some [("gene_name", Value.str "FAKEGENE"),
        ("error", Value.str "HTML could not be fetched")], none⟩, 1) ∧
    Pyp.process_gene "FAKEGENE" none ⟨none, none⟩ =
      Except.ok (⟨some [("gene_name", Value.str "FAKEGENE"),
        ("error", Value.str "HTML could not be fetched")], none⟩, 1) := by
  constructor <;> rfl

/-- C1 amended: when the fetch yields no content (all retries exhausted),
`process_gene` persists a JSON artifact holding exactly the identifier and
the error `"HTML could not be fetched"` (both variants); it is on
*validation* failure of fetched content that no JSON artifact is written
(the raw snapshot is still saved). -/
theorem c1_fetch_failure_artifact (gene_name : String) (fs : FS)
    (hj : fs.json = none) (hh : fs.html = none) :
    Scraper.process_gene gene_name none fs =
      Except.ok ({ fs with json := some [("gene_name", Value.str gene_name),
        ("error", Value.str "HTML could not be fetched")] }, 1) ∧
    Pyp.process_gene gene_name none fs =
      Except.ok ({ fs with json := some [("gene_name", Value.str gene_name),
        ("error", Value.str "HTML could not be fetched")] }, 1) ∧
    (∀ d : Doc, ¬d.isEmpty → (Scraper.validate_html (some d)).1 = false →
      Scraper.process_gene gene_name (some d) fs =
        Except.ok ({ fs with html := some d }, 1)) := by
  refine ⟨?_, ?_, ?_⟩
  · cases fs
    cases hj
    cases hh
    rfl
  · cases fs
    cases hj
    cases hh
    rfl
  · intro d hd hv
    cases fs
    cases hj
    cases hh
    simp [Scraper.process_gene, Scraper.afterFetch, contentTruthy, hd, hv]

/-- Witness for C1's amended theorem: identifier `FAKEGENE` with an empty
cache, plus invalid fetched content. -/
theorem c1_fetch_failure_artifact_witness :
    Scraper.process_gene "FAKEGENE" none ⟨none, none⟩ =
      Except.ok (⟨some [("gene_name", Value.str "FAKEGENE"),
        ("error", Value.str "HTML could not be fetched")], none⟩, 1) ∧
    Scraper.process_gene "FAKEGENE" (some junkDoc) ⟨none, none⟩ =
      Except.ok (⟨none, some junkDoc⟩, 1) :=
  ⟨(c1_fetch_failure_artifact "FAKEGENE" ⟨none, none⟩ rfl rfl).1,
   (c1_fetch_failure_artifact "FAKEGENE" ⟨none, none⟩ rfl rfl).2.2 junkDoc
     (by simp [junkDoc])
     (by simp [Scraper.validate_html, junkDoc, findWarningDiv, findH2, soupFind,
       docLocs, locsUnder, Node.tagIs, Node.stringIs, Node.hasAttr])⟩
